import Mathlib

/-!
Shallow embedding of the `vectors` repository (src/Vec2.py and src/Vec3.py).

Python floats are modelled by an arbitrary linearly ordered field `α`
(instantiated with `ℝ` or `ℚ` in the theorems).  The transcendental
library calls (`math.sqrt`, `math.radians`, `math.sin`, `math.cos`,
`math.acos`, `math.degrees`) are passed to each operation as explicit
function parameters, so every definition stays computable; theorems over
`ℝ` instantiate them with `Real.sqrt`, `Real.sin`, `Real.cos`, ...

Python exceptions are modelled by `Except PyErr`: the generic
`Exception(...)` objects the repository raises itself become
`PyErr.appException`, while the uncaught builtin exceptions keep their
builtin identity (`typeError`, `zeroDivisionError`, `valueError`).

Mutation (`self.x *= ...`) is modelled by state passing: an in-place
operation takes the receiver and returns its new state, which is also
the value the Python method returns (`return self`).
-/

/-- Python exceptions relevant to this code base.  `appException` is the
generic `Exception(...)` raised by the repository itself; the others are
builtin exceptions that escape uncaught. -/
inductive PyErr where
  | appException
  | valueError
  | typeError
  | zeroDivisionError
deriving DecidableEq

/-- State of a `Vec2` object: fields `x`, `y`, `magnitude` exactly as the
Python class stores them.  `magnitude` is an ordinary stored attribute,
not a derived quantity. -/
structure Vec2 (α : Type) where
  x : α
  y : α
  magnitude : α
deriving DecidableEq

/-- State of a `Vec3` object: fields `x`, `y`, `z`, `magnitude`. -/
structure Vec3 (α : Type) where
  x : α
  y : α
  z : α
  magnitude : α
deriving DecidableEq

/-- A Python operand as seen by the duck-typed binary operations: either a
`Vec2` object, a `Vec3` object, or some other object that has none of the
attributes `x`, `y`, `z` (attribute access on it raises `AttributeError`). -/
inductive PyObj (α : Type) where
  | vec2 (v : Vec2 α)
  | vec3 (v : Vec3 α)
  | other
deriving DecidableEq

/-- Attribute lookup `o.x`: `none` models `AttributeError`. -/
def PyObj.getX {α : Type} : PyObj α → Option α
  | .vec2 v => some v.x
  | .vec3 v => some v.x
  | .other => none

/-- Attribute lookup `o.y`: `none` models `AttributeError`. -/
def PyObj.getY {α : Type} : PyObj α → Option α
  | .vec2 v => some v.y
  | .vec3 v => some v.y
  | .other => none

/-- Attribute lookup `o.z`: a `Vec2` has no `z` attribute. -/
def PyObj.getZ {α : Type} : PyObj α → Option α
  | .vec2 _ => none
  | .vec3 v => some v.z
  | .other => none

/-- An argument passed to a constructor, as `float(...)` sees it:
a number (int or float) with value `q`, a string that parses to the
number `q`, a string that does not parse, or an object (such as `None`)
that `float` rejects with `TypeError`. -/
inductive PyInput (α : Type) where
  | num (q : α)
  | strNum (q : α)
  | strBad
  | noneLike
deriving DecidableEq

/-- The builtin `float(...)`: numbers and numeric strings convert, a
non-numeric string raises `ValueError`, other objects raise `TypeError`. -/
def pyFloat {α : Type} : PyInput α → Except PyErr α
  | .num q => .ok q
  | .strNum q => .ok q
  | .strBad => .error .valueError
  | .noneLike => .error .typeError

/-- The expression `arg ** 2` applied to a RAW constructor argument (before
coercion): defined for numbers, `TypeError` for strings and other objects. -/
def pySq {α : Type} [Monoid α] : PyInput α → Except PyErr α
  | .num q => .ok (q ^ 2)
  | .strNum _ => .error .typeError
  | .strBad => .error .typeError
  | .noneLike => .error .typeError

/-- The `try/except ValueError` wrapper in both constructors: a
`ValueError` from `float(...)` is re-raised as the generic `Exception`;
any other exception propagates unchanged. -/
def mapVE : PyErr → PyErr
  | .valueError => .appException
  | e => e

/-- Boolean success test on an `Except` result. -/
def isOkE {β : Type} : Except PyErr β → Bool
  | .ok _ => true
  | .error _ => false

namespace Vec2

variable {α : Type} [LinearOrderedField α]

/-- `Vec2.__init__` on already-numeric arguments (the path every internal
`Vec2(...)` call takes): stores `x`, `y` and computes
`magnitude = sqrt(self.x ** 2 + self.y ** 2)` from the stored fields. -/
def init (sq : α → α) (x y : α) : Vec2 α :=
  ⟨x, y, sq (x ^ 2 + y ^ 2)⟩

/-- `Vec2.__init__` on arbitrary Python arguments: coerces `x` then `y`
with `float(...)` inside `try/except ValueError`, then computes the
magnitude from the coerced fields `self.x`, `self.y`. -/
def initPy (sq : α → α) (x y : PyInput α) : Except PyErr (Vec2 α) :=
  match pyFloat x with
  | .error e => .error (mapVE e)
  | .ok fx =>
    match pyFloat y with
    | .error e => .error (mapVE e)
    | .ok fy => .ok (init sq fx fy)

/-- `Vec2.copy`: `return Vec2(self.x, self.y)` — goes through the
constructor, so the magnitude of the copy is recomputed. -/
def copy (sq : α → α) (v : Vec2 α) : Vec2 α :=
  init sq v.x v.y

/-- `Vec2.scale`: multiplies `x` and `y` by the factor and multiplies the
STORED magnitude by the same factor (it does not recompute it). -/
def scale (v : Vec2 α) (factor : α) : Vec2 α :=
  ⟨v.x * factor, v.y * factor, v.magnitude * factor⟩

/-- `Vec2.__add__`: duck-typed — reads `other.x` and `other.y`; if either
attribute access raises `AttributeError` the generic `Exception` is
raised; otherwise a new `Vec2` is constructed from the sums. -/
def add (sq : α → α) (v : Vec2 α) (other : PyObj α) : Except PyErr (Vec2 α) :=
  match other.getX, other.getY with
  | some bx, some byy => .ok (init sq (v.x + bx) (v.y + byy))
  | _, _ => .error .appException

/-- `Vec2.__sub__`: same duck typing as `__add__`, with differences. -/
def sub (sq : α → α) (v : Vec2 α) (other : PyObj α) : Except PyErr (Vec2 α) :=
  match other.getX, other.getY with
  | some bx, some byy => .ok (init sq (v.x - bx) (v.y - byy))
  | _, _ => .error .appException

/-- `Vec2.__truediv__`: computes `factor = 1 / float(other)` FIRST — a
zero divisor raises `ZeroDivisionError` there, before any scaling — and
otherwise scales a copy of the receiver (the receiver is never mutated). -/
def truediv (sq : α → α) (v : Vec2 α) (dvsr : α) : Except PyErr (Vec2 α) :=
  if dvsr = 0 then .error .zeroDivisionError
  else .ok ((v.copy sq).scale (1 / dvsr))

/-- `Vec2.normalise`: `self.scale(magnitude / self.magnitude)`.  When the
stored magnitude is `0` the division raises `ZeroDivisionError`, which the
surrounding `except ValueError` does not catch, so it escapes uncaught. -/
def normalise (v : Vec2 α) (m : α) : Except PyErr (Vec2 α) :=
  if v.magnitude = 0 then .error .zeroDivisionError
  else .ok (v.scale (m / v.magnitude))

/-- `Vec2.in_bounds`: checks the bounds tuple has length 2, that both
endpoints are exactly of type `Vec2`, that `low` does not exceed `high`
on any axis, and finally returns the strict containment test. -/
def in_bounds (v : Vec2 α) (bounds : List (PyObj α)) : Except PyErr Bool :=
  match bounds with
  | [.vec2 low, .vec2 high] =>
    if low.x > high.x ∨ low.y > high.y then .error .appException
    else .ok (decide (v.x > low.x ∧ v.y > low.y ∧ v.x < high.x ∧ v.y < high.y))
  | [_, _] => .error .appException
  | _ => .error .appException

/-- `Vec2.rotate`: returns `self` unchanged when `degrees == 0` (before
any other work); otherwise defaults the pivot to `Vec2(0, 0)`, captures
the pivot-relative offset in a fresh `Vec2`, and overwrites `x` and `y`
with the rotated components.  The stored `magnitude` is never touched. -/
def rotate (sq rd sn cs : α → α) (v : Vec2 α) (degrees : α)
    (around : Option (Vec2 α)) : Vec2 α :=
  if degrees = 0 then v
  else
    let a := around.getD (init sq 0 0)
    let rel := init sq (v.x - a.x) (v.y - a.y)
    let s := sn (rd degrees)
    let c := cs (rd degrees)
    ⟨c * rel.x - s * rel.y + a.x, c * rel.y + s * rel.x + a.y, v.magnitude⟩

end Vec2

namespace Vec3

variable {α : Type} [LinearOrderedField α]

/-- `Vec3.__init__` on already-numeric arguments: stores `x`, `y`, `z` and
computes `magnitude = sqrt(x ** 2 + y ** 2 + z ** 2)` (on numeric input
the raw arguments and the stored fields coincide). -/
def init (sq : α → α) (x y z : α) : Vec3 α :=
  ⟨x, y, z, sq (x ^ 2 + y ^ 2 + z ^ 2)⟩

/-- `Vec3.__init__` on arbitrary Python arguments.  Unlike `Vec2`, the
magnitude line reads the RAW arguments (`x ** 2`, not `self.x ** 2`), so
after a successful string coercion the exponentiation of the raw string
raises an uncaught `TypeError`. -/
def initPy (sq : α → α) (x y z : PyInput α) : Except PyErr (Vec3 α) :=
  match pyFloat x with
  | .error e => .error (mapVE e)
  | .ok fx =>
    match pyFloat y with
    | .error e => .error (mapVE e)
    | .ok fy =>
      match pyFloat z with
      | .error e => .error (mapVE e)
      | .ok fz =>
        match pySq x with
        | .error e => .error e
        | .ok sx =>
          match pySq y with
          | .error e => .error e
          | .ok sy =>
            match pySq z with
            | .error e => .error e
            | .ok sz => .ok ⟨fx, fy, fz, sq (sx + sy + sz)⟩

/-- `Vec3.copy`: `return Vec3(self.x, self.y, self.z)` via the constructor. -/
def copy (sq : α → α) (v : Vec3 α) : Vec3 α :=
  init sq v.x v.y v.z

/-- `Vec3.scale`: multiplies the three components by the factor and then
RECOMPUTES the magnitude from the new components (unlike `Vec2.scale`). -/
def scale (sq : α → α) (v : Vec3 α) (factor : α) : Vec3 α :=
  ⟨v.x * factor, v.y * factor, v.z * factor,
    sq ((v.x * factor) ^ 2 + (v.y * factor) ^ 2 + (v.z * factor) ^ 2)⟩

/-- `Vec3.__mul__`: `self.copy().scale(factor)`. -/
def mul (sq : α → α) (v : Vec3 α) (factor : α) : Vec3 α :=
  (v.copy sq).scale sq factor

/-- `Vec3.__add__`: duck-typed on attributes `x`, `y`, `z`. -/
def add (sq : α → α) (v : Vec3 α) (other : PyObj α) : Except PyErr (Vec3 α) :=
  match other.getX, other.getY, other.getZ with
  | some bx, some byy, some bz => .ok (init sq (v.x + bx) (v.y + byy) (v.z + bz))
  | _, _, _ => .error .appException

/-- `Vec3.__sub__`: duck-typed on attributes `x`, `y`, `z`. -/
def sub (sq : α → α) (v : Vec3 α) (other : PyObj α) : Except PyErr (Vec3 α) :=
  match other.getX, other.getY, other.getZ with
  | some bx, some byy, some bz => .ok (init sq (v.x - bx) (v.y - byy) (v.z - bz))
  | _, _, _ => .error .appException

/-- `Vec3.__truediv__`: `1 / float(other)` first (so a zero divisor raises
`ZeroDivisionError` before any scaling), then scales a copy. -/
def truediv (sq : α → α) (v : Vec3 α) (dvsr : α) : Except PyErr (Vec3 α) :=
  if dvsr = 0 then .error .zeroDivisionError
  else .ok ((v.copy sq).scale sq (1 / dvsr))

/-- `Vec3.normalise`: `self.scale(magnitude / self.magnitude)`; zero
stored magnitude raises an uncaught `ZeroDivisionError`. -/
def normalise (sq : α → α) (v : Vec3 α) (m : α) : Except PyErr (Vec3 α) :=
  if v.magnitude = 0 then .error .zeroDivisionError
  else .ok (v.scale sq (m / v.magnitude))

/-- `Vec3.in_bounds`: length check, exact type check on both endpoints,
low-exceeds-high check, then the strict containment test on all axes. -/
def in_bounds (v : Vec3 α) (bounds : List (PyObj α)) : Except PyErr Bool :=
  match bounds with
  | [.vec3 low, .vec3 high] =>
    if low.x > high.x ∨ low.y > high.y ∨ low.z > high.z then .error .appException
    else .ok (decide (v.x > low.x ∧ v.y > low.y ∧ v.z > low.z ∧
                      v.x < high.x ∧ v.y < high.y ∧ v.z < high.z))
  | [_, _] => .error .appException
  | _ => .error .appException

/-- `Vec3.dot_product` on two `Vec3` objects. -/
def dot_product (v w : Vec3 α) : α :=
  v.x * w.x + v.y * w.y + v.z * w.z

/-- `Vec3.cross_product`: component formulas from the source, packaged
through the constructor (which recomputes the magnitude). -/
def cross_product (sq : α → α) (v w : Vec3 α) : Vec3 α :=
  init sq (v.y * w.z - v.z * w.y) (v.z * w.x - v.x * w.z) (v.x * w.y - v.y * w.x)

/-- `Vec3.__eq__` on two `Vec3` objects: exact componentwise comparison. -/
def eqB (v w : Vec3 α) : Bool :=
  decide (v.x = w.x) && decide (v.y = w.y) && decide (v.z = w.z)

/-- `Vec3.angle_to`: `degrees(acos(dot / (|a| * |b|)))` with the two
local recoveries from the source: a zero divisor (`ZeroDivisionError`)
returns `0`, and an `acos` argument outside `[-1, 1]` (`ValueError`)
returns `180`.  `ac` stands for `math.acos`, `dg` for `math.degrees`. -/
def angle_to (ac dg : α → α) (a b : Vec3 α) : α :=
  let d := a.dot_product b
  let m := a.magnitude * b.magnitude
  if m = 0 then 0
  else if d / m < -1 ∨ 1 < d / m then 180
  else dg (ac (d / m))

/-- `Vec3.rotate`: defaults the pivot to `Vec3(0, 0, 0)`, captures the
pivot-relative offset ONCE in `rel`, then for each of yaw, pitch, roll in
that order, when the angle is nonzero, overwrites the two affected
components using `rel` (never the incrementally rotated position).  The
stored `magnitude` is never touched. -/
def rotate (sq rd sn cs : α → α) (v : Vec3 α) (yaw pitch roll : α)
    (around : Option (Vec3 α)) : Vec3 α :=
  let a := around.getD (init sq 0 0 0)
  let rel := init sq (v.x - a.x) (v.y - a.y) (v.z - a.z)
  let v1 : Vec3 α :=
    if yaw = 0 then v
    else
      let s := sn (rd yaw)
      let c := cs (rd yaw)
      ⟨c * rel.x - s * rel.z + a.x, v.y, c * rel.z + s * rel.x + a.z, v.magnitude⟩
  let v2 : Vec3 α :=
    if pitch = 0 then v1
    else
      let s := sn (rd pitch)
      let c := cs (rd pitch)
      ⟨v1.x, c * rel.y - s * rel.z + a.y, c * rel.z + s * rel.y + a.z, v1.magnitude⟩
  let v3 : Vec3 α :=
    if roll = 0 then v2
    else
      let s := sn (rd roll)
      let c := cs (rd roll)
      ⟨c * rel.x - s * rel.y + a.x, c * rel.y + s * rel.x + a.y, v2.z, v2.magnitude⟩
  v3

end Vec3

/-- A Python float value as the repr/hash machinery sees it: its numeric
value together with whether it is the negative zero (the one value where
the printed form and the compared value disagree). -/
structure PyFloatR where
  val : ℚ
  negZero : Bool
deriving DecidableEq

/-- Models CPython float formatting on the values this file uses: negative
zero prints with a leading minus as `-0.0`; an integral value `n` prints
as `n.0`; other values print by their numeric value. -/
def pyFloatStr (f : PyFloatR) : String :=
  if f.negZero then "-0.0"
  else if f.val.den = 1 then toString f.val.num ++ ".0"
  else toString f.val

/-- A `Vec2` as seen by `__repr__`, `__hash__`, `__eq__` (only `x` and `y`
participate). -/
structure Vec2R where
  x : PyFloatR
  y : PyFloatR
deriving DecidableEq

/-- `Vec2.__repr__`: the f-string rendering of the two components. -/
def Vec2R.pyRepr (v : Vec2R) : String :=
  "Vec2(" ++ pyFloatStr v.x ++ ", " ++ pyFloatStr v.y ++ ")"

/-- `Vec2.__eq__` on two `Vec2` objects: float equality compares numeric
values, so `0.0 == -0.0` is `True`. -/
def Vec2R.pyEq (a b : Vec2R) : Bool :=
  decide (a.x.val = b.x.val) && decide (a.y.val = b.y.val)

/-- `Vec2.__hash__`: `hash(self.__repr__())`.  CPython string hashing is a
per-process-seeded function of the string alone, so the hash is modelled
by the string it is computed from: equal strings always hash equal, and
the two hashes can only agree when the repr strings agree (up to an
astronomically unlikely seeded collision). -/
def Vec2R.pyHash (v : Vec2R) : String :=
  v.pyRepr

/-! Theorems -/

/-- C4 (amended): `add` and `subtract` are duck-typed on attribute access,
not on the operand's class.  `Vec2.__add__`/`__sub__` succeed with the
component-wise result for any operand exposing `x` and `y` attributes —
in particular a `Vec3` operand IS accepted (its `x`, `y` are used) — and
raise the generic `Exception` only for operands lacking them.
`Vec3.__add__`/`__sub__` need `x`, `y`, `z`, so they accept exactly `Vec3`
operands and reject `Vec2` (no `z` attribute) and non-vector objects. -/
theorem c4_add_sub_duck_typed {α : Type} [LinearOrderedField α] (sq : α → α)
    (v2 : Vec2 α) (v3 : Vec3 α) (o : PyObj α) :
    (Vec2.add sq v2 o = match o with
      | .vec2 w => .ok (Vec2.init sq (v2.x + w.x) (v2.y + w.y))
      | .vec3 w => .ok (Vec2.init sq (v2.x + w.x) (v2.y + w.y))
      | .other => .error .appException) ∧
    (Vec2.sub sq v2 o = match o with
      | .vec2 w => .ok (Vec2.init sq (v2.x - w.x) (v2.y - w.y))
      | .vec3 w => .ok (Vec2.init sq (v2.x - w.x) (v2.y - w.y))
      | .other => .error .appException) ∧
    (Vec3.add sq v3 o = match o with
      | .vec3 w => .ok (Vec3.init sq (v3.x + w.x) (v3.y + w.y) (v3.z + w.z))
      | _ => .error .appException) ∧
    (Vec3.sub sq v3 o = match o with
      | .vec3 w => .ok (Vec3.init sq (v3.x - w.x) (v3.y - w.y) (v3.z - w.z))
      | _ => .error .appException) := by
  cases o <;> exact ⟨rfl, rfl, rfl, rfl⟩

/-- C4 counterexample: the claim says `add` fails with a type error for
every operand that is not a `Vec2`, in particular for a `Vec3`; but
`Vec2(1, 2) + Vec3(10, 20, 30)` succeeds and returns `Vec2(11, 22)`
(whose magnitude is the square root of 605, here witnessed with the
identity standing in for `math.sqrt` over `ℚ`). -/
theorem c4_vec2_add_vec3_succeeds :
    Vec2.add (fun q => q) (⟨1, 2, 0⟩ : Vec2 ℚ) (.vec3 ⟨10, 20, 30, 0⟩) =
      .ok ⟨11, 22, 605⟩ := by
  simp only [Vec2.add, PyObj.getX, PyObj.getY, Vec2.init]
  norm_num

/-- C5: `normalise` on a vector whose stored magnitude is `0` fails with
the named `ZeroDivisionError` raised at the dividing call site (never a
silent NaN), and succeeds on any vector with nonzero stored magnitude. -/
theorem c5_normalise_zero_division {α : Type} [LinearOrderedField α]
    (sq : α → α) (v2 : Vec2 α) (v3 : Vec3 α) (m : α) :
    (v2.magnitude = 0 → Vec2.normalise v2 m = .error .zeroDivisionError) ∧
    (v2.magnitude ≠ 0 → isOkE (Vec2.normalise v2 m) = true) ∧
    (v3.magnitude = 0 → Vec3.normalise sq v3 m = .error .zeroDivisionError) ∧
    (v3.magnitude ≠ 0 → isOkE (Vec3.normalise sq v3 m) = true) := by
  refine ⟨fun h => ?_, fun h => ?_, fun h => ?_, fun h => ?_⟩ <;>
    simp [Vec2.normalise, Vec3.normalise, isOkE, h]

/-- C5 witness: the zero vector fails with `ZeroDivisionError` and the
vector `(3, 4, 0)` of magnitude `5` normalises successfully. -/
theorem c5_normalise_zero_division_witness :
    Vec2.normalise (⟨0, 0, 0⟩ : Vec2 ℚ) 1 = .error .zeroDivisionError ∧
    isOkE (Vec3.normalise (fun q => q) (⟨3, 4, 0, 5⟩ : Vec3 ℚ) 1) = true :=
  ⟨(c5_normalise_zero_division (fun q => q) ⟨0, 0, 0⟩ ⟨3, 4, 0, 5⟩ 1).1 rfl,
   (c5_normalise_zero_division (fun q => q) ⟨0, 0, 0⟩ ⟨3, 4, 0, 5⟩ 1).2.2.2
     (by decide)⟩

/-- C8: `cross_product` computes the right-handed cross product
componentwise, and it is anti-commutative under the library's own
equality: `cross(a, b) == cross(b, a) * (-1)` for every pair. -/
theorem c8_cross_product_anticommutative {α : Type} [LinearOrderedField α]
    (sq : α → α) (a b : Vec3 α) :
    (Vec3.cross_product sq a b).x = a.y * b.z - a.z * b.y ∧
    (Vec3.cross_product sq a b).y = a.z * b.x - a.x * b.z ∧
    (Vec3.cross_product sq a b).z = a.x * b.y - a.y * b.x ∧
    Vec3.eqB (Vec3.cross_product sq a b)
      (Vec3.mul sq (Vec3.cross_product sq b a) (-1)) = true := by
  refine ⟨rfl, rfl, rfl, ?_⟩
  simp only [Vec3.eqB, Bool.and_eq_true, decide_eq_true_eq]
  refine ⟨⟨?_, ?_⟩, ?_⟩ <;>
    · simp only [Vec3.cross_product, Vec3.mul, Vec3.copy, Vec3.scale, Vec3.init]
      ring

/-- C10: the division operator with scalar divisor exactly `0` fails with
`ZeroDivisionError` coming from the `1 / divisor` computation, before any
scaling is applied (the receiver, which `__truediv__` never mutates in
any case since it scales a copy, is left unchanged). -/
theorem c10_truediv_by_zero {α : Type} [LinearOrderedField α] (sq : α → α)
    (v2 : Vec2 α) (v3 : Vec3 α) :
    Vec2.truediv sq v2 0 = .error .zeroDivisionError ∧
    Vec3.truediv sq v3 0 = .error .zeroDivisionError :=
  ⟨by simp [Vec2.truediv], by simp [Vec3.truediv]⟩

/-- C2: `Vec3.rotate` applies yaw, pitch, roll in that fixed order, each
computed from the single pivot-relative offset `(v.x - p.x, v.y - p.y,
v.z - p.z)` captured once before any rotation (never from the
incrementally rotated position, so a later rotation overwrites an earlier
one on a shared axis); any angle that is exactly `0` is skipped entirely
(the result does not involve its trig values); and all-zero angles return
the receiver unchanged.  The returned value is the mutated receiver. -/
theorem c2_rotate3_order_and_skip {α : Type} [LinearOrderedField α]
    (sq rd sn cs : α → α) (v p : Vec3 α) (yaw pitch roll : α) :
    (Vec3.rotate sq rd sn cs v yaw pitch roll (some p) =
      ⟨if roll = 0 then
          (if yaw = 0 then v.x
           else cs (rd yaw) * (v.x - p.x) - sn (rd yaw) * (v.z - p.z) + p.x)
        else cs (rd roll) * (v.x - p.x) - sn (rd roll) * (v.y - p.y) + p.x,
       if roll = 0 then
          (if pitch = 0 then v.y
           else cs (rd pitch) * (v.y - p.y) - sn (rd pitch) * (v.z - p.z) + p.y)
        else cs (rd roll) * (v.y - p.y) + sn (rd roll) * (v.x - p.x) + p.y,
       if pitch = 0 then
          (if yaw = 0 then v.z
           else cs (rd yaw) * (v.z - p.z) + sn (rd yaw) * (v.x - p.x) + p.z)
        else cs (rd pitch) * (v.z - p.z) + sn (rd pitch) * (v.y - p.y) + p.z,
       v.magnitude⟩) ∧
    Vec3.rotate sq rd sn cs v 0 0 0 (some p) = v ∧
    Vec3.rotate sq rd sn cs v 0 0 0 none = v := by
  refine ⟨?_, ?_, ?_⟩
  · simp only [Vec3.rotate, Vec3.init, Option.getD_some]
    split_ifs <;> rfl
  · simp [Vec3.rotate]
  · simp [Vec3.rotate]

/-- C3: `angle_to` never raises: it returns `0` whenever either stored
magnitude is `0` (the `ZeroDivisionError` recovery), returns exactly
`180` whenever the cosine ratio falls outside the `acos` domain (the
`ValueError` recovery, triggered exactly when the absolute ratio exceeds
1), and otherwise returns `degrees(acos(dot / (|a| * |b|)))`. -/
theorem c3_angle_to_fallback_policy {α : Type} [LinearOrderedField α]
    (ac dg : α → α) (a b : Vec3 α) :
    Vec3.angle_to ac dg a b =
      if a.magnitude = 0 ∨ b.magnitude = 0 then 0
      else if 1 < |a.dot_product b / (a.magnitude * b.magnitude)| then 180
      else dg (ac (a.dot_product b / (a.magnitude * b.magnitude))) := by
  simp only [Vec3.angle_to]
  set r := a.dot_product b / (a.magnitude * b.magnitude) with hr
  have hiff : (r < -1 ∨ 1 < r) ↔ 1 < |r| := by
    rw [lt_abs, lt_neg]
    tauto
  rcases eq_or_ne (a.magnitude * b.magnitude) 0 with hm | hm
  · rw [if_pos hm, if_pos (mul_eq_zero.mp hm)]
  · rw [if_neg hm, if_neg (fun h => hm (mul_eq_zero.mpr h))]
    by_cases hd : r < -1 ∨ 1 < r
    · rw [if_pos hd, if_pos (hiff.mp hd)]
    · rw [if_neg hd, if_neg (fun h => hd (hiff.mpr h))]

/-- C6: with a well-formed pair of bounds of the expected vector type,
`in_bounds` returns `True` exactly when the point is strictly inside the
box on every axis; a point equal to `low` or `high` on any axis gets
`False`; and the generic `Exception` is raised whenever `low` exceeds
`high` on some axis or an endpoint is not of the expected vector type. -/
theorem c6_in_bounds_strict {α : Type} [LinearOrderedField α]
    (v2 low2 high2 : Vec2 α) (v3 low3 high3 : Vec3 α)
    (h2x : low2.x ≤ high2.x) (h2y : low2.y ≤ high2.y)
    (h3x : low3.x ≤ high3.x) (h3y : low3.y ≤ high3.y) (h3z : low3.z ≤ high3.z) :
    (Vec2.in_bounds v2 [.vec2 low2, .vec2 high2] = .ok true ↔
      low2.x < v2.x ∧ v2.x < high2.x ∧ low2.y < v2.y ∧ v2.y < high2.y) ∧
    ((v2.x = low2.x ∨ v2.x = high2.x ∨ v2.y = low2.y ∨ v2.y = high2.y) →
      Vec2.in_bounds v2 [.vec2 low2, .vec2 high2] = .ok false) ∧
    (∀ l h : Vec2 α, l.x > h.x ∨ l.y > h.y →
      Vec2.in_bounds v2 [.vec2 l, .vec2 h] = .error .appException) ∧
    (∀ w : Vec3 α, Vec2.in_bounds v2 [.vec3 w, .vec2 high2] = .error .appException) ∧
    Vec2.in_bounds v2 [.other, .vec2 high2] = .error .appException ∧
    (Vec3.in_bounds v3 [.vec3 low3, .vec3 high3] = .ok true ↔
      low3.x < v3.x ∧ v3.x < high3.x ∧ low3.y < v3.y ∧ v3.y < high3.y ∧
      low3.z < v3.z ∧ v3.z < high3.z) ∧
    ((v3.x = low3.x ∨ v3.x = high3.x ∨ v3.y = low3.y ∨ v3.y = high3.y ∨
      v3.z = low3.z ∨ v3.z = high3.z) →
      Vec3.in_bounds v3 [.vec3 low3, .vec3 high3] = .ok false) ∧
    (∀ l h : Vec3 α, l.x > h.x ∨ l.y > h.y ∨ l.z > h.z →
      Vec3.in_bounds v3 [.vec3 l, .vec3 h] = .error .appException) ∧
    (∀ w : Vec2 α, Vec3.in_bounds v3 [.vec2 w, .vec3 high3] = .error .appException) ∧
    Vec3.in_bounds v3 [.other, .vec3 high3] = .error .appException := by
  have hno2 : ¬(low2.x > high2.x ∨ low2.y > high2.y) := by
    push_neg
    exact ⟨h2x, h2y⟩
  have hno3 : ¬(low3.x > high3.x ∨ low3.y > high3.y ∨ low3.z > high3.z) := by
    push_neg
    exact ⟨h3x, h3y, h3z⟩
  refine ⟨?_, ?_, ?_, fun w => rfl, rfl, ?_, ?_, ?_, fun w => rfl, rfl⟩
  · simp only [Vec2.in_bounds, if_neg hno2, Except.ok.injEq, decide_eq_true_eq]
    tauto
  · intro hb
    have hnp : ¬(v2.x > low2.x ∧ v2.y > low2.y ∧ v2.x < high2.x ∧ v2.y < high2.y) := by
      rcases hb with h | h | h | h <;> simp [h]
    simp only [Vec2.in_bounds, if_neg hno2, Except.ok.injEq]
    exact decide_eq_false hnp
  · intro l h hlh
    simp only [Vec2.in_bounds, if_pos hlh]
  · simp only [Vec3.in_bounds, if_neg hno3, Except.ok.injEq, decide_eq_true_eq]
    tauto
  · intro hb
    have hnp : ¬(v3.x > low3.x ∧ v3.y > low3.y ∧ v3.z > low3.z ∧
        v3.x < high3.x ∧ v3.y < high3.y ∧ v3.z < high3.z) := by
      rcases hb with h | h | h | h | h | h <;> simp [h]
    simp only [Vec3.in_bounds, if_neg hno3, Except.ok.injEq]
    exact decide_eq_false hnp
  · intro l h hlh
    simp only [Vec3.in_bounds, if_pos hlh]

/-- C6 witness: the interior point `(1, 1)` of the box from `(0, 0)` to
`(2, 2)` is reported strictly inside. -/
theorem c6_in_bounds_strict_witness :
    Vec2.in_bounds (⟨1, 1, 7⟩ : Vec2 ℚ) [.vec2 ⟨0, 0, 0⟩, .vec2 ⟨2, 2, 0⟩] =
      .ok true :=
  (c6_in_bounds_strict (⟨1, 1, 7⟩ : Vec2 ℚ) ⟨0, 0, 0⟩ ⟨2, 2, 0⟩
    (⟨1, 1, 1, 0⟩ : Vec3 ℚ) ⟨0, 0, 0, 0⟩ ⟨2, 2, 2, 0⟩
    (by norm_num) (by norm_num) (by norm_num) (by norm_num) (by norm_num)).1.mpr
    (by norm_num)

/-- C1 counterexample: the invariant fails immediately after a public
operation.  Starting from `Vec2(3, 4)` (stored magnitude `sqrt 25 = 5`),
`scale(-1)` multiplies the stored magnitude by the factor, leaving `-5`,
while the square root of the sum of squares of the new components
`(-3, -4)` is `5`. -/
theorem c1_scale_negative_counterexample :
    (Vec2.scale (Vec2.init Real.sqrt 3 4) (-1)).magnitude ≠
      Real.sqrt ((Vec2.scale (Vec2.init Real.sqrt 3 4) (-1)).x ^ 2 +
                 (Vec2.scale (Vec2.init Real.sqrt 3 4) (-1)).y ^ 2) := by
  have h5 : Real.sqrt ((3 : ℝ) ^ 2 + 4 ^ 2) = 5 := by
    rw [show ((3 : ℝ) ^ 2 + 4 ^ 2) = 5 ^ 2 by norm_num]
    exact Real.sqrt_sq (by norm_num)
  have h5b : Real.sqrt (((3 : ℝ) * -1) ^ 2 + ((4 : ℝ) * -1) ^ 2) = 5 := by
    rw [show (((3 : ℝ) * -1) ^ 2 + ((4 : ℝ) * -1) ^ 2) = 5 ^ 2 by norm_num]
    exact Real.sqrt_sq (by norm_num)
  simp only [Vec2.scale, Vec2.init, h5, h5b]
  norm_num

/-- C1 (amended): the stored magnitude equals the square root of the sum
of the squares of the current components after construction (both types),
after `Vec3.scale` with any factor (it recomputes the magnitude), after
`Vec2.scale` with any NONNEGATIVE factor, and after `Vec2.rotate` about
the default origin pivot; it fails in general — `Vec2.scale` with a
negative factor stores a negative magnitude, and `rotate` about a pivot
that changes the distance to the origin leaves the magnitude stale. -/
theorem c1_magnitude_invariant_amended (v : Vec2 ℝ) (f θ : ℝ)
    (hv : v.magnitude = Real.sqrt (v.x ^ 2 + v.y ^ 2)) (hf : 0 ≤ f) :
    (Vec2.scale v f).magnitude =
      Real.sqrt ((Vec2.scale v f).x ^ 2 + (Vec2.scale v f).y ^ 2) ∧
    (Vec2.rotate Real.sqrt (fun d => d * Real.pi / 180) Real.sin Real.cos
        v θ none).magnitude =
      Real.sqrt ((Vec2.rotate Real.sqrt (fun d => d * Real.pi / 180) Real.sin
          Real.cos v θ none).x ^ 2 +
        (Vec2.rotate Real.sqrt (fun d => d * Real.pi / 180) Real.sin Real.cos
          v θ none).y ^ 2) ∧
    (∀ (w : Vec3 ℝ) (g : ℝ), (Vec3.scale Real.sqrt w g).magnitude =
      Real.sqrt ((Vec3.scale Real.sqrt w g).x ^ 2 +
        (Vec3.scale Real.sqrt w g).y ^ 2 + (Vec3.scale Real.sqrt w g).z ^ 2)) ∧
    (∀ x y : ℝ, (Vec2.init Real.sqrt x y).magnitude =
      Real.sqrt ((Vec2.init Real.sqrt x y).x ^ 2 +
        (Vec2.init Real.sqrt x y).y ^ 2)) ∧
    (∀ x y z : ℝ, (Vec3.init Real.sqrt x y z).magnitude =
      Real.sqrt ((Vec3.init Real.sqrt x y z).x ^ 2 +
        (Vec3.init Real.sqrt x y z).y ^ 2 +
        (Vec3.init Real.sqrt x y z).z ^ 2)) := by
  refine ⟨?_, ?_, fun w g => rfl, fun x y => rfl, fun x y z => rfl⟩
  · simp only [Vec2.scale, hv]
    rw [show (v.x * f) ^ 2 + (v.y * f) ^ 2 = f ^ 2 * (v.x ^ 2 + v.y ^ 2) by ring,
      Real.sqrt_mul (sq_nonneg f), Real.sqrt_sq_eq_abs, abs_of_nonneg hf]
    ring
  · by_cases h0 : θ = 0
    · simp only [Vec2.rotate, if_pos h0]
      exact hv
    · simp only [Vec2.rotate, if_neg h0, Vec2.init, Option.getD_none]
      rw [hv]
      congr 1
      have ht := Real.sin_sq_add_cos_sq (θ * Real.pi / 180)
      linear_combination (-(v.x ^ 2 + v.y ^ 2)) * ht

/-- C1 witness: the amended invariant applied to `Vec2(3, 4)` scaled by
the nonnegative factor `2`. -/
theorem c1_magnitude_invariant_amended_witness :
    (Vec2.scale (Vec2.init Real.sqrt 3 4) 2).magnitude =
      Real.sqrt ((Vec2.scale (Vec2.init Real.sqrt 3 4) 2).x ^ 2 +
                 (Vec2.scale (Vec2.init Real.sqrt 3 4) 2).y ^ 2) :=
  (c1_magnitude_invariant_amended (Vec2.init Real.sqrt 3 4) 2 90 rfl
    (by norm_num)).1

/-- C7 (code bug): `Vec2(0.0, 0.0)` and `Vec2(-0.0, 0.0)` compare equal
under `__eq__` (float equality ignores the sign of zero), yet their
`__repr__` strings — the exact inputs `__hash__` feeds to the string
hash — differ, so the two equal objects hash differently, violating the
hash/equality contract the claim states. -/
theorem c7_neg_zero_hash_inconsistency :
    Vec2R.pyEq ⟨⟨0, false⟩, ⟨0, false⟩⟩ ⟨⟨0, true⟩, ⟨0, false⟩⟩ = true ∧
    Vec2R.pyRepr ⟨⟨0, false⟩, ⟨0, false⟩⟩ = "Vec2(0.0, 0.0)" ∧
    Vec2R.pyRepr ⟨⟨0, true⟩, ⟨0, false⟩⟩ = "Vec2(-0.0, 0.0)" ∧
    Vec2R.pyHash ⟨⟨0, false⟩, ⟨0, false⟩⟩ ≠
      Vec2R.pyHash ⟨⟨0, true⟩, ⟨0, false⟩⟩ := by
  refine ⟨by decide, rfl, rfl, by decide⟩

/-- C9 (code bug): `Vec3.__init__` computes the magnitude from the RAW
arguments (`x ** 2`), not the coerced `self.x`, so constructing a `Vec3`
from the numeric string `"3"` raises an uncaught `TypeError` even though
the input is coercible — while `Vec2` (which squares `self.x`) accepts
the same strings, and `Vec3` on plain numbers computes the magnitude at
construction time as the claim states.  A non-numeric string is reported
through the constructor's own `Exception`.  The identity function stands
in for `math.sqrt` over `ℚ`, so `25` in place of the magnitude records
that `sqrt(3 ** 2 + 4 ** 2)` was requested. -/
theorem c9_vec3_string_magnitude_bug :
    Vec3.initPy (fun q => q) (.strNum 3) (.num 4) (.num 0) =
      (.error .typeError : Except PyErr (Vec3 ℚ)) ∧
    Vec2.initPy (fun q => q) (.strNum 3) (.strNum 4) =
      (.ok ⟨3, 4, 25⟩ : Except PyErr (Vec2 ℚ)) ∧
    Vec3.initPy (fun q => q) (.num 3) (.num 4) (.num 0) =
      (.ok ⟨3, 4, 0, 25⟩ : Except PyErr (Vec3 ℚ)) ∧
    Vec3.initPy (fun q => q) (.strBad) (.num 4) (.num 0) =
      (.error .appException : Except PyErr (Vec3 ℚ)) := by
  refine ⟨rfl, ?_, ?_, rfl⟩
  · simp only [Vec2.initPy, pyFloat, Vec2.init]
    norm_num
  · simp only [Vec3.initPy, pyFloat, pySq]
    norm_num
